import Mathlib

/-!
Verification development for the Illegal-Mining-Detection repository.

The embedding below translates, into Lean, the core of
`src/backend/compare_with_lease.py` (class IllegalMiningDetector) and
`src/backend/detect_indices.py` (class MiningDetector).  Numeric values are
modelled as rationals; geometric primitives of the GEOS library (areas of a
polygon, of its intersection with the buffered lease union, of its
difference, and the per-lease overlap areas) are treated as oracle inputs
carried by each detected polygon, since the geometry engine itself is
outside the repository.  A Python exception in fallible code is modelled by
an `Option` value being `none`.
-/

/-- Rounding of a rational to the nearest integer, ties to even, as the
Python builtin `round` behaves on exact values. -/
def pyRoundInt (q : ℚ) : ℤ :=
  let f := ⌊q⌋
  let r := q - (f : ℚ)
  if r < 1/2 then f
  else if 1/2 < r then f + 1
  else if f % 2 = 0 then f else f + 1

/-- Python `round(q, n)` for a rational `q` and `n` decimal digits. -/
def pyRound (q : ℚ) (n : ℕ) : ℚ :=
  (pyRoundInt (q * 10 ^ n) : ℚ) / 10 ^ n

/-- One entry of the `overlapping_leases` list built in
`_analyze_single_polygon` (lines 244 to 252 of compare_with_lease.py). -/
structure LeaseOverlap where
  lease_id : String
  lease_name : String
  overlap_area_ha : ℚ
  deriving DecidableEq

/-- Geometry-oracle data for one detected polygon: the areas (in square
meters, the unit of the equal-area CRS EPSG:3857) returned by the geometry
library for the polygon itself, for its intersection with the buffered
lease union, and for its difference with that union, together with the
list of individual leases that intersect the polygon (lease id, lease
name, intersection area in square meters). -/
structure PolyGeom where
  total_area_m2 : ℚ
  inside_area_m2 : ℚ
  outside_area_m2 : ℚ
  lease_overlaps : List (String × String × ℚ)
  deriving DecidableEq

/-- Result dictionary built by `_analyze_single_polygon` (the `geometry`
entry, carried through unchanged, is omitted). -/
structure ClassificationRecord where
  total_area_ha : ℚ
  inside_area_ha : ℚ
  outside_area_ha : ℚ
  overlap_percentage : ℚ
  status : String
  confidence : ℚ
  overlapping_leases : List LeaseOverlap
  num_overlapping_leases : ℕ
  illegal_area_ha : ℚ
  deriving DecidableEq

/-- Tolerance in hectares, set in `IllegalMiningDetector.__init__`
(line 35: `self.tolerance_ha = 0.01`). -/
def tolerance_ha : ℚ := 1/100

/-- Translation of `IllegalMiningDetector._classify_mining_status`
(lines 290 to 304). -/
def classify_mining_status (outside_area_ha overlap_percentage : ℚ) : String :=
  if outside_area_ha ≤ tolerance_ha then "legal"
  else if 80 ≤ overlap_percentage then "mixed"
  else "illegal"

/-- Translation of `IllegalMiningDetector._calculate_confidence_score`
(lines 306 to 338). -/
def calculate_confidence_score (total_area_ha overlap_percentage : ℚ)
    (num_overlapping_leases : ℕ) : ℚ :=
  let base_confidence : ℚ :=
    if 95 ≤ overlap_percentage then 95/100
    else if 80 ≤ overlap_percentage then 85/100
    else if 50 ≤ overlap_percentage then 70/100
    else 60/100
  let area_factor : ℚ :=
    if 10 ≤ total_area_ha then 1
    else if 1 ≤ total_area_ha then 9/10
    else 8/10
  let lease_factor : ℚ :=
    if num_overlapping_leases = 1 then 1
    else if 1 < num_overlapping_leases then 9/10
    else 8/10
  min 1 (max 0 (base_confidence * area_factor * lease_factor))

/-- Total area in hectares (line 225: `total_area_m2 / 10000`). -/
def total_area_ha_of (g : PolyGeom) : ℚ :=
  g.total_area_m2 / 10000

/-- Inside area in hectares (lines 229 to 230, with the guard
`inside_geom.area if inside_geom.area > 0 else 0`). -/
def inside_area_ha_of (g : PolyGeom) : ℚ :=
  (if 0 < g.inside_area_m2 then g.inside_area_m2 else 0) / 10000

/-- Outside area in hectares (lines 234 to 235, with the same guard). -/
def outside_area_ha_of (g : PolyGeom) : ℚ :=
  (if 0 < g.outside_area_m2 then g.outside_area_m2 else 0) / 10000

/-- Overlap percentage (lines 238 to 241). -/
def overlap_percentage_of (g : PolyGeom) : ℚ :=
  if 0 < total_area_ha_of g then inside_area_ha_of g / total_area_ha_of g * 100
  else 0

/-- The `overlapping_leases` list (lines 244 to 252): one entry per
intersecting lease, with the overlap area converted to hectares and
rounded to two decimals. -/
def overlapping_leases_of (g : PolyGeom) : List LeaseOverlap :=
  g.lease_overlaps.map fun lo => ⟨lo.1, lo.2.1, pyRound (lo.2.2 / 10000) 2⟩

/-- Fallback record emitted by the `except` branch of
`_analyze_single_polygon` (lines 275 to 288). -/
def errorRecord : ClassificationRecord :=
  { total_area_ha := 0
    inside_area_ha := 0
    outside_area_ha := 0
    overlap_percentage := 0
    status := "error"
    confidence := 0
    overlapping_leases := []
    num_overlapping_leases := 0
    illegal_area_ha := 0 }

/-- Translation of `IllegalMiningDetector._analyze_single_polygon`
(lines 216 to 288).  The argument is `none` when the geometry oracle
raises for this polygon, which triggers the `except` branch. -/
def analyze_single_polygon (g? : Option PolyGeom) : ClassificationRecord :=
  match g? with
  | none => errorRecord
  | some g =>
    let status := classify_mining_status (outside_area_ha_of g) (overlap_percentage_of g)
    let confidence := calculate_confidence_score (total_area_ha_of g)
      (overlap_percentage_of g) (overlapping_leases_of g).length
    { total_area_ha := pyRound (total_area_ha_of g) 2
      inside_area_ha := pyRound (inside_area_ha_of g) 2
      outside_area_ha := pyRound (outside_area_ha_of g) 2
      overlap_percentage := pyRound (overlap_percentage_of g) 1
      status := status
      confidence := pyRound confidence 2
      overlapping_leases := overlapping_leases_of g
      num_overlapping_leases := (overlapping_leases_of g).length
      illegal_area_ha :=
        if status = "illegal" ∨ status = "mixed" then pyRound (outside_area_ha_of g) 2
        else 0 }

/-- Translation of `IllegalMiningDetector.compare_with_lease`
(lines 151 to 214).  The batch argument is `none` when a batch-level
structural failure raises inside the `try` body (for example an
unreadable geometry collection); the `except` branch (lines 212 to 214)
then returns an empty GeoDataFrame, modelled as the empty list.  The
boolean records whether the lease collection is empty (the early return
at lines 168 to 170). -/
def compare_with_lease (detected? : Option (List (Option PolyGeom)))
    (leases_empty : Bool) : List ClassificationRecord :=
  match detected? with
  | none => []
  | some polys =>
    if polys.isEmpty || leases_empty then []
    else polys.map analyze_single_polygon

/-- C1: for every detected polygon the classification status is decided by
an ordered first-match rule on the unrounded values: outside area at most
the 0.01 ha tolerance (inclusive) gives status legal; otherwise overlap
percentage at least 80 gives mixed; otherwise illegal. -/
theorem classify_status_first_match (o p : ℚ) :
    (o ≤ 1/100 → classify_mining_status o p = "legal")
    ∧ (1/100 < o → 80 ≤ p → classify_mining_status o p = "mixed")
    ∧ (1/100 < o → p < 80 → classify_mining_status o p = "illegal")
    ∧ classify_mining_status (1/100) p = "legal" := by
  unfold classify_mining_status tolerance_ha
  refine ⟨fun h => ?_, fun h1 h2 => ?_, fun h1 h2 => ?_, ?_⟩
  · rw [if_pos h]
  · rw [if_neg (not_le.mpr h1), if_pos h2]
  · rw [if_neg (not_le.mpr h1), if_neg (not_le.mpr h2)]
  · rw [if_pos le_rfl]

/-- Witness for C1 at concrete inputs, covering the boundary case where
the outside area equals the tolerance exactly. -/
theorem classify_status_first_match_witness :
    classify_mining_status (1/100) 0 = "legal"
    ∧ classify_mining_status 1 90 = "mixed"
    ∧ classify_mining_status 1 50 = "illegal" :=
  ⟨(classify_status_first_match (1/100) 0).1 (by norm_num),
   (classify_status_first_match 1 90).2.1 (by norm_num) (by norm_num),
   (classify_status_first_match 1 50).2.2.1 (by norm_num) (by norm_num)⟩

/-- Helper: `pyRoundInt` rounds down when the fractional part is below
one half. -/
theorem pyRoundInt_eq_down (q : ℚ) (f : ℤ) (h1 : (f : ℚ) ≤ q)
    (h3 : q - f < 1/2) : pyRoundInt q = f := by
  have hf : ⌊q⌋ = f := Int.floor_eq_iff.mpr ⟨h1, by linarith⟩
  show (if q - (⌊q⌋ : ℚ) < 1/2 then ⌊q⌋
    else if 1/2 < q - (⌊q⌋ : ℚ) then ⌊q⌋ + 1
    else if ⌊q⌋ % 2 = 0 then ⌊q⌋ else ⌊q⌋ + 1) = f
  rw [hf, if_pos h3]

/-- Helper: `pyRoundInt` rounds up when the fractional part is above one
half. -/
theorem pyRoundInt_eq_up (q : ℚ) (f : ℤ) (h1 : (f : ℚ) ≤ q)
    (ha : 1/2 < q - f) (h2 : q < f + 1) : pyRoundInt q = f + 1 := by
  have hf : ⌊q⌋ = f := Int.floor_eq_iff.mpr ⟨h1, by linarith⟩
  show (if q - (⌊q⌋ : ℚ) < 1/2 then ⌊q⌋
    else if 1/2 < q - (⌊q⌋ : ℚ) then ⌊q⌋ + 1
    else if ⌊q⌋ % 2 = 0 then ⌊q⌋ else ⌊q⌋ + 1) = f + 1
  rw [hf, if_neg (by rw [not_lt]; linarith), if_pos ha]

/-- Helper: evaluation rule for `pyRound` in the rounding-down case. -/
theorem pyRound_eq_down (q : ℚ) (n : ℕ) (f : ℤ) (h1 : (f : ℚ) ≤ q * 10 ^ n)
    (h3 : q * 10 ^ n - f < 1/2) : pyRound q n = f / 10 ^ n := by
  unfold pyRound
  rw [pyRoundInt_eq_down (q * 10 ^ n) f h1 h3]

/-- Geometry-oracle data for Scenario B of the spec: a detected polygon of
5 ha (50000 square meters) with no overlap with any lease. -/
def scenarioB_geom : PolyGeom :=
  { total_area_m2 := 50000
    inside_area_m2 := 0
    outside_area_m2 := 50000
    lease_overlaps := [] }

/-- Geometry-oracle data exhibiting the rounding gap: the exact outside
area is 120 square meters (0.012 ha), strictly above the 0.01 ha
tolerance, but it rounds to 0.01 in the stored record. -/
def rounding_demo_geom : PolyGeom :=
  { total_area_m2 := 200
    inside_area_m2 := 80
    outside_area_m2 := 120
    lease_overlaps := [] }

/-- Helper: unrounded areas and overlap percentage for Scenario B. -/
theorem scenarioB_components :
    total_area_ha_of scenarioB_geom = 5
    ∧ inside_area_ha_of scenarioB_geom = 0
    ∧ outside_area_ha_of scenarioB_geom = 5
    ∧ overlap_percentage_of scenarioB_geom = 0 := by
  refine ⟨?_, ?_, ?_, ?_⟩ <;>
    norm_num [total_area_ha_of, inside_area_ha_of, outside_area_ha_of,
      overlap_percentage_of, scenarioB_geom]

/-- Helper: the confidence score of Scenario B evaluates to 0.432. -/
theorem scenarioB_confidence_score :
    calculate_confidence_score 5 0 0 = 432/1000 := by
  norm_num [calculate_confidence_score, min_def, max_def]

/-- Helper: the record stored for Scenario B carries status illegal and
confidence rounded to 0.43. -/
theorem scenarioB_record :
    (analyze_single_polygon (some scenarioB_geom)).status = "illegal"
    ∧ (analyze_single_polygon (some scenarioB_geom)).confidence = 43/100 := by
  obtain ⟨ht, hi, ho, hp⟩ := scenarioB_components
  constructor
  · have h : (analyze_single_polygon (some scenarioB_geom)).status
        = classify_mining_status (outside_area_ha_of scenarioB_geom)
          (overlap_percentage_of scenarioB_geom) := rfl
    rw [h, ho, hp]
    norm_num [classify_mining_status, tolerance_ha]
  · have h : (analyze_single_polygon (some scenarioB_geom)).confidence
        = pyRound (calculate_confidence_score (total_area_ha_of scenarioB_geom)
            (overlap_percentage_of scenarioB_geom)
            (overlapping_leases_of scenarioB_geom).length) 2 := rfl
    have hl : (overlapping_leases_of scenarioB_geom).length = 0 := rfl
    rw [h, ht, hp, hl, scenarioB_confidence_score,
      pyRound_eq_down (432/1000) 2 43 (by norm_num) (by norm_num)]
    norm_num

/-- Helper: unrounded areas and overlap percentage for the rounding
demonstration polygon. -/
theorem rounding_demo_components :
    total_area_ha_of rounding_demo_geom = 1/50
    ∧ inside_area_ha_of rounding_demo_geom = 1/125
    ∧ outside_area_ha_of rounding_demo_geom = 3/250
    ∧ overlap_percentage_of rounding_demo_geom = 40 := by
  refine ⟨?_, ?_, ?_, ?_⟩ <;>
    norm_num [total_area_ha_of, inside_area_ha_of, outside_area_ha_of,
      overlap_percentage_of, rounding_demo_geom]

/-- Helper: the stored record for the rounding demonstration polygon shows
an outside area of exactly 0.01 ha next to status illegal. -/
theorem rounding_demo_record :
    (analyze_single_polygon (some rounding_demo_geom)).outside_area_ha = 1/100
    ∧ (analyze_single_polygon (some rounding_demo_geom)).status = "illegal" := by
  obtain ⟨ht, hi, ho, hp⟩ := rounding_demo_components
  constructor
  · have h : (analyze_single_polygon (some rounding_demo_geom)).outside_area_ha
        = pyRound (outside_area_ha_of rounding_demo_geom) 2 := rfl
    rw [h, ho, pyRound_eq_down (3/250) 2 1 (by norm_num) (by norm_num)]
    norm_num
  · have h : (analyze_single_polygon (some rounding_demo_geom)).status
        = classify_mining_status (outside_area_ha_of rounding_demo_geom)
          (overlap_percentage_of rounding_demo_geom) := rfl
    rw [h, ho, hp]
    norm_num [classify_mining_status, tolerance_ha]

/-- Helper: with a nonempty lease collection, the comparison over a
successfully read batch is exactly the per-polygon analysis mapped over
the inputs. -/
theorem compare_some_false_eq_map (polys : List (Option PolyGeom)) :
    compare_with_lease (some polys) false = polys.map analyze_single_polygon := by
  cases polys <;> simp [compare_with_lease]

/-- C2 counterexample: for the Scenario B polygon (5 ha, zero overlap,
zero leases) the confidence stored in the ClassificationRecord is 0.43,
not the exact product 0.432 claimed for the record, because
`_analyze_single_polygon` rounds the score to two decimals. -/
theorem scenarioB_record_confidence_not_exact :
    (analyze_single_polygon (some scenarioB_geom)).status = "illegal"
    ∧ (analyze_single_polygon (some scenarioB_geom)).confidence = 43/100
    ∧ (43/100 : ℚ) ≠ 432/1000 :=
  ⟨scenarioB_record.1, scenarioB_record.2, by norm_num⟩

/-- C2 amended: the confidence score computed by
`_calculate_confidence_score` follows the base, area and lease factor
table, is clamped to [0,1], and equals 0.432 for Scenario B; the record
stores this score rounded to two decimals, hence 0.43 for Scenario B. -/
theorem confidence_formula_clamped_and_rounded :
    (∀ (t o : ℚ) (n : ℕ), 0 ≤ calculate_confidence_score t o n
      ∧ calculate_confidence_score t o n ≤ 1)
    ∧ calculate_confidence_score 5 0 0 = 432/1000
    ∧ (analyze_single_polygon (some scenarioB_geom)).status = "illegal"
    ∧ (analyze_single_polygon (some scenarioB_geom)).confidence
        = pyRound (calculate_confidence_score 5 0 0) 2
    ∧ (analyze_single_polygon (some scenarioB_geom)).confidence = 43/100 := by
  refine ⟨fun t o n => ⟨?_, ?_⟩, scenarioB_confidence_score, scenarioB_record.1,
    ?_, scenarioB_record.2⟩
  · exact le_min (by norm_num) (le_max_left _ _)
  · exact min_le_left _ _
  · rw [scenarioB_record.2, scenarioB_confidence_score,
      pyRound_eq_down (432/1000) 2 43 (by norm_num) (by norm_num)]
    norm_num

/-- C3: when the analysis of a single polygon fails internally, the
emitted record has every numeric field zero, an empty lease list and
status error; the batch loop still returns one record per input polygon
in input order. -/
theorem error_record_and_batch_order :
    analyze_single_polygon none =
      { total_area_ha := 0
        inside_area_ha := 0
        outside_area_ha := 0
        overlap_percentage := 0
        status := "error"
        confidence := 0
        overlapping_leases := []
        num_overlapping_leases := 0
        illegal_area_ha := 0 }
    ∧ (∀ polys : List (Option PolyGeom),
        compare_with_lease (some polys) false = polys.map analyze_single_polygon)
    ∧ (∀ polys : List (Option PolyGeom),
        (compare_with_lease (some polys) false).length = polys.length)
    ∧ (∀ (polys : List (Option PolyGeom)) (i : ℕ),
        (compare_with_lease (some polys) false)[i]?
          = (polys[i]?).map analyze_single_polygon) := by
  refine ⟨rfl, compare_some_false_eq_map, fun polys => ?_, fun polys i => ?_⟩
  · rw [compare_some_false_eq_map, List.length_map]
  · rw [compare_some_false_eq_map, List.getElem?_map]

/-- C6 counterexample: a batch-level structural failure inside
`compare_with_lease` does not propagate to the caller; the `except`
branch returns an empty collection, identical to the output for an empty
input batch, so a failed batch is silently substituted by an empty
result. -/
theorem batch_failure_yields_empty_result :
    compare_with_lease none false = ([] : List ClassificationRecord)
    ∧ compare_with_lease none false = compare_with_lease (some []) false :=
  ⟨rfl, rfl⟩

/-- C6 amended: whatever the state of the lease collection, a batch-level
failure is caught and converted to the empty record list, which cannot be
distinguished from the result for an empty input batch. -/
theorem batch_failure_swallowed (le : Bool) :
    compare_with_lease none le = []
    ∧ compare_with_lease none le = compare_with_lease (some []) le := by
  cases le <;> exact ⟨rfl, rfl⟩

/-- C10: the status is computed from the unrounded areas and overlap
percentage while the stored fields are rounded (areas and confidence to
two decimals, overlap percentage to one); hence a record can show an
outside area equal to the 0.01 tolerance while its status is illegal, and
the stored Scenario B confidence is 0.43 rather than 0.432. -/
theorem status_unrounded_fields_rounded :
    (∀ g : PolyGeom, (analyze_single_polygon (some g)).status
      = classify_mining_status (outside_area_ha_of g) (overlap_percentage_of g))
    ∧ (∀ g : PolyGeom, (analyze_single_polygon (some g)).outside_area_ha
      = pyRound (outside_area_ha_of g) 2)
    ∧ (∀ g : PolyGeom, (analyze_single_polygon (some g)).overlap_percentage
      = pyRound (overlap_percentage_of g) 1)
    ∧ (analyze_single_polygon (some rounding_demo_geom)).outside_area_ha = 1/100
    ∧ (analyze_single_polygon (some rounding_demo_geom)).status = "illegal"
    ∧ (analyze_single_polygon (some scenarioB_geom)).confidence = 43/100 :=
  ⟨fun _ => rfl, fun _ => rfl, fun _ => rfl, rounding_demo_record.1,
   rounding_demo_record.2, scenarioB_record.2⟩

/-- Summary dictionary produced by
`IllegalMiningDetector.generate_summary_statistics` (lines 340 to 384).
The `average_confidence` field is optional because the early return for an
empty input (lines 343 to 354) builds a dictionary without that key. -/
structure SummaryStatistics where
  total_detected_areas : ℕ
  legal_areas : ℕ
  illegal_areas : ℕ
  mixed_areas : ℕ
  total_detected_area_ha : ℚ
  legal_area_ha : ℚ
  illegal_area_ha : ℚ
  compliance_rate_percent : ℚ
  violation_rate_percent : ℚ
  average_confidence : Option ℚ
  deriving DecidableEq

/-- Translation of `IllegalMiningDetector.generate_summary_statistics`
(lines 340 to 384). -/
def generate_summary_statistics (records : List ClassificationRecord) :
    SummaryStatistics :=
  if records.isEmpty then
    { total_detected_areas := 0
      legal_areas := 0
      illegal_areas := 0
      mixed_areas := 0
      total_detected_area_ha := 0
      legal_area_ha := 0
      illegal_area_ha := 0
      compliance_rate_percent := 0
      violation_rate_percent := 0
      average_confidence := none }
  else
    let legal := records.filter fun r => r.status == "legal"
    let illegal := records.filter fun r => r.status == "illegal"
    let mixed := records.filter fun r => r.status == "mixed"
    let total_area := (records.map fun r => r.total_area_ha).sum
    let legal_area := (legal.map fun r => r.total_area_ha).sum
    let illegal_area := (illegal.map fun r => r.illegal_area_ha).sum
    let mixed_area := (mixed.map fun r => r.illegal_area_ha).sum
    let compliance_rate :=
      if 0 < total_area then legal_area / total_area * 100 else 0
    let violation_rate :=
      if 0 < total_area then (illegal_area + mixed_area) / total_area * 100 else 0
    { total_detected_areas := records.length
      legal_areas := legal.length
      illegal_areas := illegal.length
      mixed_areas := mixed.length
      total_detected_area_ha := pyRound total_area 2
      legal_area_ha := pyRound legal_area 2
      illegal_area_ha := pyRound (illegal_area + mixed_area) 2
      compliance_rate_percent := pyRound compliance_rate 1
      violation_rate_percent := pyRound violation_rate 1
      average_confidence :=
        some (pyRound ((records.map fun r => r.confidence).sum / records.length) 2) }

/-- C7 counterexample: for an empty record collection the summary does
return without raising, but the returned value has no average_confidence
entry at all (the early-return dictionary omits the key), so the summary
is not a value in which every field, including average_confidence, is
zero. -/
theorem empty_summary_average_confidence_missing :
    (generate_summary_statistics []).average_confidence = none
    ∧ (none : Option ℚ) ≠ some 0 :=
  ⟨rfl, by simp⟩

/-- C7 amended: for an empty record collection the aggregator returns,
without raising, a summary whose nine present fields (counts, areas and
both rate percentages) are all zero, while the average_confidence entry
is absent rather than zero. -/
theorem empty_summary_all_zero :
    generate_summary_statistics [] =
      { total_detected_areas := 0
        legal_areas := 0
        illegal_areas := 0
        mixed_areas := 0
        total_detected_area_ha := 0
        legal_area_ha := 0
        illegal_area_ha := 0
        compliance_rate_percent := 0
        violation_rate_percent := 0
        average_confidence := none } :=
  rfl

/-- Translation of the area computation of `MiningDetector.polygonize_mask`
(line 301 of detect_indices.py): the polygon area in native CRS units is
always scaled by the square of 111000 (meters per degree) and divided by
10000, with no inspection of the CRS. -/
def polygon_area_ha (poly_area : ℚ) : ℚ :=
  poly_area * 111000 * 111000 / 10000

/-- Comparison definition following the words of the spec (section 4.3):
apply the degree conversion only when the CRS is geographic; for a
projected metric CRS take the native area in square meters directly. -/
def polygon_area_ha_specRule (is_geographic : Bool) (poly_area : ℚ) : ℚ :=
  if is_geographic then poly_area * 111000 * 111000 / 10000
  else poly_area / 10000

/-- C5 counterexample: for a projected metric CRS and a polygon of 10000
square meters (one hectare), the code still applies the flat-earth degree
conversion and reports 12321000000 ha where the spec rule for a projected
CRS gives 1 ha. -/
theorem area_conversion_ignores_crs :
    polygon_area_ha 10000 = 12321000000
    ∧ polygon_area_ha_specRule false 10000 = 1
    ∧ polygon_area_ha 10000 ≠ polygon_area_ha_specRule false 10000 := by
  norm_num [polygon_area_ha, polygon_area_ha_specRule]

/-- C5 amended: during polygonization the flat-earth conversion
(area × 111000 × 111000) / 10000 is applied unconditionally; the code
coincides with the geographic branch of the spec rule for every CRS and
never uses the native-unit branch. -/
theorem area_conversion_unconditional (a : ℚ) :
    polygon_area_ha a = polygon_area_ha_specRule true a
    ∧ polygon_area_ha a = a * 111000 * 111000 / 10000 :=
  ⟨rfl, rfl⟩

/-- Epsilon guard used by `MiningDetector._calculate_spectral_indices`
(line 118 of detect_indices.py: `epsilon = 1e-8`). -/
def eps : ℚ := 1/100000000

/-- Per-pixel reflectance values of the six Sentinel-2 bands read by
`generate_mask` (lines 67 to 72). -/
structure Bands where
  blue : ℚ
  green : ℚ
  red : ℚ
  nir : ℚ
  swir1 : ℚ
  swir2 : ℚ
  deriving DecidableEq

/-- Division as numpy performs it on a pixel, with `none` standing for the
non-finite result (NaN or Inf) produced when the denominator is zero. -/
def safeDiv (a b : ℚ) : Option ℚ :=
  if b = 0 then none else some (a / b)

/-- NDVI (line 121): (nir - red) / (nir + red + eps). -/
def ndvi (b : Bands) : Option ℚ :=
  safeDiv (b.nir - b.red) (b.nir + b.red + eps)

/-- BSI (line 124). -/
def bsi (b : Bands) : Option ℚ :=
  safeDiv ((b.swir1 + b.red) - (b.nir + b.blue))
    ((b.swir1 + b.red) + (b.nir + b.blue) + eps)

/-- NDBI (line 127). -/
def ndbi (b : Bands) : Option ℚ :=
  safeDiv (b.swir1 - b.nir) (b.swir1 + b.nir + eps)

/-- NDWI (line 130). -/
def ndwi (b : Bands) : Option ℚ :=
  safeDiv (b.green - b.nir) (b.green + b.nir + eps)

/-- MNDWI (line 135). -/
def mndwi (b : Bands) : Option ℚ :=
  safeDiv (b.green - b.swir1) (b.green + b.swir1 + eps)

/-- SAVI (lines 138 to 139), with soil factor L = 0.5 and no epsilon in
the denominator. -/
def savi (b : Bands) : Option ℚ :=
  (safeDiv (b.nir - b.red) (b.nir + b.red + 1/2)).map fun x => x * (1 + 1/2)

/-- EVI (line 142): 2.5 times (nir - red) divided by
(nir + 6 red - 7.5 blue + 1 + eps).  The exact zero test of `safeDiv` is
unreachable here for the dyadic band values a float raster can hold, as
proved in [evi_denom_ne_zero] below, matching the absence of a zero
denominator in the float arithmetic of the program. -/
def evi (b : Bands) : Option ℚ :=
  (safeDiv (b.nir - b.red) (b.nir + 6 * b.red - (15/2) * b.blue + 1 + eps)).map
    fun x => (5/2) * x

/-- NBR (line 145). -/
def nbr (b : Bands) : Option ℚ :=
  safeDiv (b.nir - b.swir2) (b.nir + b.swir2 + eps)

/-- Helper: a safe division is finite exactly when the denominator is
nonzero. -/
theorem safeDiv_isSome (a b : ℚ) : (safeDiv a b).isSome ↔ b ≠ 0 := by
  unfold safeDiv
  by_cases h : b = 0 <;> simp [h]

/-- Validity range for a pixel: all six band values lie in [0,1]. -/
def bandsInRange (b : Bands) : Prop :=
  0 ≤ b.blue ∧ b.blue ≤ 1 ∧ 0 ≤ b.green ∧ b.green ≤ 1
  ∧ 0 ≤ b.red ∧ b.red ≤ 1 ∧ 0 ≤ b.nir ∧ b.nir ≤ 1
  ∧ 0 ≤ b.swir1 ∧ b.swir1 ≤ 1 ∧ 0 ≤ b.swir2 ∧ b.swir2 ≤ 1

/-- Dyadic rationals: integer numerator over a power of two.  Every binary
floating point number, hence every band value a raster read through
`generate_mask` can hold, is of this form; only the dyadic inputs are
reachable by the program. -/
def IsDyadic (q : ℚ) : Prop :=
  ∃ (z : ℤ) (n : ℕ), q = z / 2 ^ n

/-- Helper: no dyadic rational equals minus the epsilon guard, because the
reduced denominator of a dyadic rational is a power of two while the
reduced denominator of 1e-8 = 1/(2^8 5^8) is divisible by five. -/
theorem dyadic_ne_neg_eps (z : ℤ) (n : ℕ) :
    (z : ℚ) / 2 ^ n ≠ -(1/100000000) := by
  intro h
  have hq : (z : ℚ) * 100000000 = -(2 ^ n) := by
    field_simp at h
    linarith
  have hz : z * 100000000 = -(2 ^ n : ℤ) := by exact_mod_cast hq
  have hd : (5:ℤ) ∣ 100000000 := by norm_num
  have h5 : (5:ℤ) ∣ 2 ^ n := by
    have h5m : (5:ℤ) ∣ z * 100000000 := hd.mul_left z
    rw [hz] at h5m
    exact dvd_neg.mp h5m
  have hp : Prime (5:ℤ) := by norm_num
  have h52 : (5:ℤ) ∣ 2 := hp.dvd_of_dvd_pow h5
  norm_num at h52

/-- Helper: for dyadic band values the EVI denominator never vanishes.
The three band terms and the constant one form a dyadic rational, so the
denominator could only vanish if that dyadic rational equalled minus
epsilon, which [dyadic_ne_neg_eps] excludes. -/
theorem evi_denom_ne_zero (blue red nir : ℚ) (hb : IsDyadic blue)
    (hr : IsDyadic red) (hn : IsDyadic nir) :
    nir + 6 * red - (15/2) * blue + 1 + eps ≠ 0 := by
  obtain ⟨zb, nb, rfl⟩ := hb
  obtain ⟨zr, nr, rfl⟩ := hr
  obtain ⟨zn, nn, rfl⟩ := hn
  intro h0
  have hS : (zn : ℚ) / 2 ^ nn + 6 * ((zr : ℚ) / 2 ^ nr)
      - (15/2) * ((zb : ℚ) / 2 ^ nb) + 1
      = ((zn * 2 ^ (nr + nb + 1) + 6 * zr * 2 ^ (nn + nb + 1)
          - 15 * zb * 2 ^ (nn + nr) + 2 ^ (nn + nr + nb + 1) : ℤ) : ℚ)
        / 2 ^ (nn + nr + nb + 1) := by
    push_cast
    field_simp
    ring
  have h1 : ((zn * 2 ^ (nr + nb + 1) + 6 * zr * 2 ^ (nn + nb + 1)
      - 15 * zb * 2 ^ (nn + nr) + 2 ^ (nn + nr + nb + 1) : ℤ) : ℚ)
        / 2 ^ (nn + nr + nb + 1) = -(1/100000000) := by
    rw [← hS]
    have he : eps = 1/100000000 := rfl
    rw [he] at h0
    linarith
  exact dyadic_ne_neg_eps _ _ h1

/-- C4: for every pixel whose six band values lie in [0,1] and are dyadic
(as all machine floating point band values are), all eight index values
are finite: the denominators of NDVI, BSI, NDBI, NDWI, MNDWI, SAVI and
NBR are sums of nonnegative terms plus a positive constant, and the EVI
denominator nir + 6 red - 7.5 blue + 1 + eps cannot vanish on dyadic
inputs because a dyadic value can never cancel the five-adic part of the
epsilon guard. -/
theorem indices_all_finite (b : Bands) (h : bandsInRange b)
    (hdy : IsDyadic b.blue ∧ IsDyadic b.red ∧ IsDyadic b.nir) :
    (ndvi b).isSome ∧ (bsi b).isSome ∧ (ndbi b).isSome ∧ (ndwi b).isSome
    ∧ (mndwi b).isSome ∧ (savi b).isSome ∧ (evi b).isSome
    ∧ (nbr b).isSome := by
  obtain ⟨h1, h2, h3, h4, h5, h6, h7, h8, h9, h10, h11, h12⟩ := h
  have heps : (0:ℚ) < eps := by norm_num [eps]
  refine ⟨?_, ?_, ?_, ?_, ?_, ?_, ?_, ?_⟩
  · simp only [ndvi, safeDiv_isSome]
    exact ne_of_gt (by linarith)
  · simp only [bsi, safeDiv_isSome]
    exact ne_of_gt (by linarith)
  · simp only [ndbi, safeDiv_isSome]
    exact ne_of_gt (by linarith)
  · simp only [ndwi, safeDiv_isSome]
    exact ne_of_gt (by linarith)
  · simp only [mndwi, safeDiv_isSome]
    exact ne_of_gt (by linarith)
  · simp only [savi, safeDiv]
    rw [if_neg (ne_of_gt (by linarith : (0:ℚ) < b.nir + b.red + 1/2))]
    rfl
  · simp only [evi, safeDiv]
    rw [if_neg (evi_denom_ne_zero b.blue b.red b.nir hdy.1 hdy.2.1 hdy.2.2)]
    rfl
  · simp only [nbr, safeDiv_isSome]
    exact ne_of_gt (by linarith)

/-- Pixel with every band at one half, a dyadic in-range input. -/
def halfBands : Bands :=
  { blue := 1/2, green := 1/2, red := 1/2, nir := 1/2, swir1 := 1/2, swir2 := 1/2 }

/-- Witness for C4 at a concrete dyadic in-range pixel. -/
theorem indices_all_finite_witness :
    (ndvi halfBands).isSome ∧ (bsi halfBands).isSome ∧ (ndbi halfBands).isSome
    ∧ (ndwi halfBands).isSome ∧ (mndwi halfBands).isSome
    ∧ (savi halfBands).isSome ∧ (evi halfBands).isSome
    ∧ (nbr halfBands).isSome :=
  indices_all_finite halfBands (by norm_num [bandsInRange, halfBands])
    ⟨⟨1, 1, by norm_num [halfBands]⟩, ⟨1, 1, by norm_num [halfBands]⟩,
     ⟨1, 1, by norm_num [halfBands]⟩⟩

/-- Per-pixel values of the seven index rasters consumed by
`MiningDetector._create_mining_mask` (lines 158 to 207 of
detect_indices.py); MNDWI is computed but not used by the mask. -/
structure IndexPixel where
  ndvi : ℚ
  bsi : ℚ
  ndbi : ℚ
  ndwi : ℚ
  savi : ℚ
  evi : ℚ
  nbr : ℚ
  deriving DecidableEq

/-- Number of threshold criteria satisfied at a pixel (lines 169 to 191):
ndvi below 0.2, bsi above 0.3, ndwi below 0.2, ndbi above 0.1, savi below
0.1, evi below 0.1, nbr below 0.1. -/
def criteria_count (p : IndexPixel) : ℕ :=
  (if p.ndvi < 2/10 then 1 else 0) + (if 3/10 < p.bsi then 1 else 0)
  + (if p.ndwi < 2/10 then 1 else 0) + (if 1/10 < p.ndbi then 1 else 0)
  + (if p.savi < 1/10 then 1 else 0) + (if p.evi < 1/10 then 1 else 0)
  + (if p.nbr < 1/10 then 1 else 0)

/-- Strict spectral signature (lines 198 to 202): ndvi below 0.15, bsi
above 0.4 and ndbi above 0.2. -/
def mining_signature_pixel (p : IndexPixel) : Bool :=
  decide (p.ndvi < 15/100) && decide (4/10 < p.bsi) && decide (2/10 < p.ndbi)

/-- Raw mask value of one pixel (lines 193 to 205): the majority vote
over the seven criteria, with threshold four, or the strict signature. -/
def mining_mask_pixel (p : IndexPixel) : Bool :=
  decide (4 ≤ criteria_count p) || mining_signature_pixel p

/-- Predicate: the pixel satisfies all seven threshold criteria. -/
def allCriteria (p : IndexPixel) : Prop :=
  p.ndvi < 2/10 ∧ 3/10 < p.bsi ∧ p.ndwi < 2/10 ∧ 1/10 < p.ndbi
  ∧ p.savi < 1/10 ∧ p.evi < 1/10 ∧ p.nbr < 1/10

/-- Predicate: the pixel satisfies none of the seven threshold criteria. -/
def noCriteria (p : IndexPixel) : Prop :=
  ¬ p.ndvi < 2/10 ∧ ¬ 3/10 < p.bsi ∧ ¬ p.ndwi < 2/10 ∧ ¬ 1/10 < p.ndbi
  ∧ ¬ p.savi < 1/10 ∧ ¬ p.evi < 1/10 ∧ ¬ p.nbr < 1/10

/-- C8: per pixel, the raw mining mask is the disjunction of the
four-of-seven vote and the strict signature; a raster satisfying all
seven criteria at every pixel gives an all-true raw mask, and a raster
satisfying none of the seven criteria at any pixel gives an all-false raw
mask, since a pixel failing the weak ndvi, bsi and ndbi criteria cannot
fire the strict signature. -/
theorem mining_mask_vote_or_signature :
    (∀ p : IndexPixel, mining_mask_pixel p
      = (decide (4 ≤ criteria_count p) || mining_signature_pixel p))
    ∧ (∀ r : List IndexPixel, (∀ p ∈ r, allCriteria p)
      → r.map mining_mask_pixel = r.map fun _ => true)
    ∧ (∀ r : List IndexPixel, (∀ p ∈ r, noCriteria p)
      → r.map mining_mask_pixel = r.map fun _ => false) := by
  refine ⟨fun p => rfl, fun r hr => List.map_congr_left fun p hp => ?_,
    fun r hr => List.map_congr_left fun p hp => ?_⟩
  · obtain ⟨h1, h2, h3, h4, h5, h6, h7⟩ := hr p hp
    have hc : criteria_count p = 7 := by
      unfold criteria_count
      rw [if_pos h1, if_pos h2, if_pos h3, if_pos h4, if_pos h5, if_pos h6,
        if_pos h7]
    simp [mining_mask_pixel, hc]
  · obtain ⟨h1, h2, h3, h4, h5, h6, h7⟩ := hr p hp
    have hc : criteria_count p = 0 := by
      unfold criteria_count
      rw [if_neg h1, if_neg h2, if_neg h3, if_neg h4, if_neg h5, if_neg h6,
        if_neg h7]
    have hndvi : ¬ p.ndvi < 15/100 := by
      rw [not_lt] at h1 ⊢
      linarith
    have hs : mining_signature_pixel p = false := by
      unfold mining_signature_pixel
      rw [decide_eq_false hndvi, Bool.false_and, Bool.false_and]
    simp [mining_mask_pixel, hc, hs]

/-- Pixel satisfying all seven criteria. -/
def allPixel : IndexPixel :=
  { ndvi := 0, bsi := 1, ndbi := 1, ndwi := 0, savi := 0, evi := 0, nbr := 0 }

/-- Pixel satisfying none of the seven criteria. -/
def noPixel : IndexPixel :=
  { ndvi := 1, bsi := 0, ndbi := 0, ndwi := 1, savi := 1, evi := 1, nbr := 1 }

/-- Witness for C8 on concrete one-pixel rasters. -/
theorem mining_mask_vote_or_signature_witness :
    [allPixel].map mining_mask_pixel = [allPixel].map (fun _ => true)
    ∧ [noPixel].map mining_mask_pixel = [noPixel].map (fun _ => false) :=
  ⟨mining_mask_vote_or_signature.2.1 [allPixel]
    (by
      intro p hp
      rw [List.mem_singleton] at hp
      subst hp
      norm_num [allCriteria, allPixel]),
   mining_mask_vote_or_signature.2.2 [noPixel]
    (by
      intro p hp
      rw [List.mem_singleton] at hp
      subst hp
      norm_num [noCriteria, noPixel])⟩

/-- Helper: with an empty lease collection the comparison returns the
empty record list whatever the batch holds. -/
theorem compare_some_true_eq_nil (polys : List (Option PolyGeom)) :
    compare_with_lease (some polys) true = [] := by
  cases polys <;> simp [compare_with_lease]

/-- C9: the classifier is a pure function of its inputs, so two runs on
identical inputs produce identical records; selecting the input polygons
through any index list commutes with classification, so permuting the
input order permutes the records accordingly, each record unchanged; in
particular permuted inputs give permuted outputs. -/
theorem classifier_deterministic_order_independent :
    (∀ (b₁ b₂ : Option (List (Option PolyGeom))) (l₁ l₂ : Bool),
      b₁ = b₂ → l₁ = l₂ → compare_with_lease b₁ l₁ = compare_with_lease b₂ l₂)
    ∧ (∀ (polys : List (Option PolyGeom)) (le : Bool) (sel : List ℕ),
      compare_with_lease (some (sel.filterMap fun i => polys[i]?)) le
        = sel.filterMap fun i => (compare_with_lease (some polys) le)[i]?)
    ∧ (∀ (p₁ p₂ : List (Option PolyGeom)) (le : Bool), p₁.Perm p₂
      → (compare_with_lease (some p₁) le).Perm (compare_with_lease (some p₂) le)) := by
  refine ⟨fun b₁ b₂ l₁ l₂ hb hl => by rw [hb, hl], fun polys le sel => ?_,
    fun p₁ p₂ le hperm => ?_⟩
  · cases le
    · simp [compare_some_false_eq_map, List.map_filterMap, List.getElem?_map]
    · simp [compare_some_true_eq_nil]
  · cases le
    · rw [compare_some_false_eq_map, compare_some_false_eq_map]
      exact hperm.map _
    · rw [compare_some_true_eq_nil, compare_some_true_eq_nil]

/-- Witness for C9: two identical runs coincide, and swapping a
two-polygon batch permutes the two records. -/
theorem classifier_deterministic_order_independent_witness :
    compare_with_lease (some [some scenarioB_geom, none]) false
      = compare_with_lease (some [some scenarioB_geom, none]) false
    ∧ (compare_with_lease (some [some scenarioB_geom, none]) false).Perm
        (compare_with_lease (some [none, some scenarioB_geom]) false) :=
  ⟨classifier_deterministic_order_independent.1 _ _ _ _ rfl rfl,
   classifier_deterministic_order_independent.2.2 _ _ false
     (List.Perm.swap none (some scenarioB_geom) [])⟩
